import Mathlib

/-!
Verification development of the `guardian` package of story-geth
(address-screening guard, `guardian/guardian.go`).

The Go module is shallowly embedded: pure functions become Lean functions,
effects on the package-level singleton become explicit state passing, Go
errors become `Except String` / `Option String`, and nil pointers become
`Option`.  External collaborators (the bloom-filter store, the signer's
sender recovery, the reload manager, the OS environment) are modelled as
abstract data carried in structures, exactly at the interface the Go code
uses.
-/

namespace Guard

/-- Model of `strings.ToLower` on one character: the Go function maps
ASCII letters `A`-`Z` to their lowercase form and leaves other characters
of the address strings used here unchanged. -/
def goToLowerChar (c : Char) : Char :=
  if 'A' ≤ c ∧ c ≤ 'Z' then Char.ofNat (c.toNat + 32) else c

/-- Model of Go `strings.ToLower` applied to an address string, mapping the
lowering over the characters. -/
def goToLower (s : String) : String :=
  ⟨s.data.map goToLowerChar⟩

/-- Model of `filepath.Join` for the clean, dot-free path components the
guardian passes to it: a non-empty separator-joined concatenation, where an
empty component disappears. -/
def filepathJoin (a b : String) : String :=
  if a = "" then b else if b = "" then a else a ++ "/" ++ b

/-- Constant `bloomFilterFilename` from the source. -/
def bloomFilterFilename : String := "bloom_filter.gob"

/-- Constant `linuxPath` from the source. -/
def linuxPath : String := "geth/guardian"

/-- Constant `darwinPath` from the source. -/
def darwinPath : String := "Library/Story/geth/guardian"

/-- A transaction, at the interface `CheckTransaction` reads it:
`tx.To()` (nil for contract creation, modelled as `none`) and
`tx.Hash().Hex()`.  Sender recovery lives on the signer. -/
structure Transaction where
  toField : Option String
  hash : String
deriving DecidableEq, Repr

/-- A signer, at the interface the guardian uses it: `types.Sender(signer, tx)`
(external go-ethereum collaborator) either recovers the sender's address and
yields its `Hex()` form, or fails. -/
structure Signer where
  sender : Transaction → Except String String

/-- The external `store.BloomFilterStore` collaborator, at the interface the
guardian uses it: `CheckAddress(addr)` answers membership or fails with a
store-level error. -/
structure BloomFilterStore where
  CheckAddress : String → Except String Bool

/-- The external `reload.ReloadManager` collaborator: the guardian only
starts and stops it, so the model records whether it is running. -/
structure ReloadManager where
  running : Bool
deriving DecidableEq, Repr

/-- The `Guardian` struct: the bloom filter store and the (nilable) reload
manager pointer.  The mutex only serialises `Stop`/`Reset` and has no
observable content in the sequential model. -/
structure Guardian where
  filter : BloomFilterStore
  manager : Option ReloadManager

/-- The `Config` struct. -/
structure Config where
  FilterFilePath : String
  Disabled : Bool
deriving DecidableEq, Repr

/-- The `filteredTxLog` record handed to `logFilteredEntry` on a hit
(the field written `from` in Go is `fromAddr` here, `from` being reserved
in Lean). -/
structure filteredTxLog where
  filteredAddress : String
  fromAddr : String
  transaction : Transaction
deriving DecidableEq, Repr

/-- Modelled from the spec: `logFilteredEntry` is defined in a repository
file that is not under src/; per the spec the FilteredEntryLogger records
the structured audit entry `{filteredAddress, counterpart, transaction}`
and may return an error that the caller merely logs.  It is modelled as
producing the recorded entry. -/
def logFilteredEntry (entry : filteredTxLog) : List filteredTxLog :=
  [entry]

/-- Method `checkAddress` of `Guardian`: look the lowercased address up in
the filter; on a store error return `(false, err)`; on a hit record a
`filteredTxLog` entry and return `(true, nil)`; otherwise `(false, nil)`.
The result is the Go pair `(bool, error)` together with the audit entries
produced. -/
def Guardian.checkAddress (p : Guardian) (tx : Transaction) (fromA addr : String) :
    Bool × Option String × List filteredTxLog :=
  match p.filter.CheckAddress (goToLower addr) with
  | .error e => (false, some e, [])
  | .ok true =>
      (true, none, logFilteredEntry { filteredAddress := addr, fromAddr := fromA, transaction := tx })
  | .ok false => (false, none, [])

/-- Method `CheckTransaction` of `Guardian`: recover the sender (failure
returns `false`); check the sender's address, returning the obtained
`filtered` flag as soon as the check errors or hits; then, when a recipient
is present, check it the same way; otherwise return `false`.  The result is
the returned boolean together with all audit entries produced. -/
def Guardian.CheckTransaction (p : Guardian) (signer : Signer) (tx : Transaction) :
    Bool × List filteredTxLog :=
  match signer.sender tx with
  | .error _ => (false, [])
  | .ok fromHex =>
    let r1 := p.checkAddress tx fromHex fromHex
    if r1.2.1.isSome ∨ r1.1 then (r1.1, r1.2.2)
    else
      match tx.toField with
      | some toHex =>
        let r2 := p.checkAddress tx fromHex toHex
        if r2.2.1.isSome ∨ r2.1 then (r2.1, r1.2.2 ++ r2.2.2)
        else (false, r1.2.2 ++ r2.2.2)
      | none => (false, r1.2.2)

/-- The process environment `newGuardian` and `getDefaultPath` consult:
`runtime.GOOS`, `user.Current()` (its `HomeDir` on success), the external
constructors `store.NewBloomFilterStoreFromFile` and
`reload.NewFileWatcherNotifier` keyed by the file path they receive, and
the outcome of `manager.Start`. -/
structure Env where
  goos : String
  currentUser : Except String String
  storeFromFile : String → Except String BloomFilterStore
  notifierFromFile : String → Except String Unit
  managerStart : Except String Unit

/-- The package-level mutable state: the `instanceRef` pointer (Go variable
`instance`, a reserved word in Lean) and whether the `initOnce` guard has
fired. -/
structure GlobalState where
  instanceRef : Option Guardian
  initOnceConsumed : Bool

/-- The state of a freshly loaded process: no singleton, guard unfired. -/
def initialState : GlobalState :=
  { instanceRef := none, initOnceConsumed := false }

/-- Function `getDefaultPath`: home directory from `user.Current()`, then a
platform switch joining the platform's relative path, erroring on any other
platform. -/
def getDefaultPath (env : Env) : Except String String :=
  match env.currentUser with
  | .error e => .error e
  | .ok home =>
    match env.goos with
    | "linux" => .ok (filepathJoin home linuxPath)
    | "darwin" => .ok (filepathJoin home darwinPath)
    | _ => .error "unsupported OS for guardian"

/-- Function `newGuardian`: default the empty filter path, build the store
from the file, build the file-watcher notifier, start the reload manager,
and return the assembled `Guardian`. -/
def newGuardian (env : Env) (config : Config) : Except String Guardian :=
  let pathE : Except String String :=
    if config.FilterFilePath = "" then
      match getDefaultPath env with
      | .error e => .error e
      | .ok p => .ok (filepathJoin p bloomFilterFilename)
    else
      .ok config.FilterFilePath
  match pathE with
  | .error e => .error e
  | .ok path =>
    match env.storeFromFile path with
    | .error e => .error e
    | .ok filter =>
      match env.notifierFromFile path with
      | .error e => .error e
      | .ok _ =>
        match env.managerStart with
        | .error e => .error e
        | .ok _ => .ok { filter := filter, manager := some { running := true } }

/-- Function `InitInstance`: inside `initOnce.Do`, skip everything when the
guard already fired; otherwise consume the guard and, unless the config is
disabled, install `newGuardian`'s result (leaving no instance on failure). -/
def InitInstance (env : Env) (config : Config) (s : GlobalState) : GlobalState :=
  if s.initOnceConsumed then s
  else
    let s := { s with initOnceConsumed := true }
    if config.Disabled then s
    else
      match newGuardian env config with
      | .ok g => { s with instanceRef := some g }
      | .error _ => s

/-- Function `GetInstance`: the singleton, or an error when it is nil. -/
def GetInstance (s : GlobalState) : Except String Guardian :=
  match s.instanceRef with
  | none => .error "guardian is not initialized"
  | some g => .ok g

/-- Method `Stop` of `Guardian`: under the mutex, stop the reload manager
when one is present (its stop error is discarded). -/
def Guardian.Stop (p : Guardian) : Guardian :=
  match p.manager with
  | some m => { p with manager := some { m with running := false } }
  | none => p

/-- Dereference of a nilable pointer: `none` is a nil-pointer panic. -/
def deref {α : Type} (x : Option α) : Except String α :=
  match x with
  | some v => .ok v
  | none => .error "nil pointer dereference"

/-- Method `Reset` of `Guardian`: when the package-level `instance` is
non-nil, dereference it and stop it; then clear the singleton and put back
a fresh `initOnce` guard.  The result carries the new global state and what
a holder of the old instance pointer now observes; a nil-pointer panic
would surface as `Except.error`. -/
def Guardian.Reset (_p : Guardian) (s : GlobalState) :
    Except String (GlobalState × Option Guardian) :=
  let oldE : Except String (Option Guardian) :=
    if s.instanceRef.isSome then
      match deref s.instanceRef with
      | .error e => .error e
      | .ok g => .ok (some g.Stop)
    else
      .ok none
  match oldE with
  | .error e => .error e
  | .ok old => .ok ({ instanceRef := none, initOnceConsumed := false }, old)

/-- Reading of `CheckTransaction` with the receiver and the package-level
state threaded explicitly, so that any write to the guardian's fields or to
the singleton would be visible in the returned pair.  The body mirrors
`Guardian.CheckTransaction` step by step. -/
def Guardian.CheckTransactionST (p : Guardian) (s : GlobalState)
    (signer : Signer) (tx : Transaction) :
    (Bool × List filteredTxLog) × Guardian × GlobalState :=
  match signer.sender tx with
  | .error _ => ((false, []), p, s)
  | .ok fromHex =>
    let r1 := p.checkAddress tx fromHex fromHex
    if r1.2.1.isSome ∨ r1.1 then ((r1.1, r1.2.2), p, s)
    else
      match tx.toField with
      | some toHex =>
        let r2 := p.checkAddress tx fromHex toHex
        if r2.2.1.isSome ∨ r2.1 then ((r2.1, r1.2.2 ++ r2.2.2), p, s)
        else ((false, r1.2.2 ++ r2.2.2), p, s)
      | none => ((false, r1.2.2), p, s)

/-! Concrete fixtures used by witnesses and counterexamples. -/

/-- A bloom filter store answering `false` for every address. -/
def emptyFilter : BloomFilterStore := { CheckAddress := fun _ => .ok false }

/-- A bloom filter store hitting exactly the lowercase addresses `0xabc`
and `0xbbb`. -/
def hitFilter : BloomFilterStore :=
  { CheckAddress := fun a => .ok (decide (a = "0xabc" ∨ a = "0xbbb")) }

/-- A guardian over `emptyFilter`. -/
def emptyGuardian : Guardian := { filter := emptyFilter, manager := none }

/-- A guardian over `hitFilter`. -/
def hitGuardian : Guardian := { filter := hitFilter, manager := none }

/-- A transaction whose recipient is `0xBBB`. -/
def txToB : Transaction := { toField := some "0xBBB", hash := "0xt1" }

/-- A contract-creation transaction (no recipient). -/
def txCreate : Transaction := { toField := none, hash := "0xt2" }

/-- A signer recovering the sender `0xAbC` from any transaction. -/
def signerAbC : Signer := { sender := fun _ => .ok "0xAbC" }

/-- A signer recovering the sender `0xDdD` from any transaction. -/
def signerDdD : Signer := { sender := fun _ => .ok "0xDdD" }

/-- A signer whose sender recovery always fails. -/
def signerFail : Signer := { sender := fun _ => .error "invalid sig" }

/-! Theorems settling the claims. -/

/-- C3: whenever sender recovery fails on a transaction, `CheckTransaction`
returns `false` with no audit entry, without consulting the membership
store (the result is the same for every guardian) and without panicking
(the function is total and yields this value). -/
theorem checkTransaction_recovery_failure (p q : Guardian) (signer : Signer)
    (tx : Transaction) (e : String) (h : signer.sender tx = .error e) :
    p.CheckTransaction signer tx = (false, []) ∧
    p.CheckTransaction signer tx = q.CheckTransaction signer tx := by
  unfold Guardian.CheckTransaction
  rw [h]
  exact ⟨rfl, rfl⟩

/-- Witness for C3 at the failing signer, an arbitrary transaction and two
distinct guardians. -/
theorem checkTransaction_recovery_failure_witness :
    signerFail.sender txToB = .error "invalid sig" ∧
    (emptyGuardian.CheckTransaction signerFail txToB = (false, []) ∧
     emptyGuardian.CheckTransaction signerFail txToB =
       hitGuardian.CheckTransaction signerFail txToB) :=
  ⟨rfl, checkTransaction_recovery_failure emptyGuardian hitGuardian signerFail txToB
    "invalid sig" rfl⟩

/-- C4: `checkAddress` queries the store at the lowercased address (a hit
is exactly a store hit at `goToLower addr`), so two addresses with the same
lowercase form yield the same membership outcome and the same error. -/
theorem checkAddress_case_insensitive (p : Guardian) (tx : Transaction)
    (fromA a1 a2 : String) (h : goToLower a1 = goToLower a2) :
    ((p.checkAddress tx fromA a1).1 = (p.checkAddress tx fromA a2).1 ∧
     (p.checkAddress tx fromA a1).2.1 = (p.checkAddress tx fromA a2).2.1) ∧
    ∀ a : String,
      (p.checkAddress tx fromA a).1 = true ↔
        p.filter.CheckAddress (goToLower a) = .ok true := by
  constructor
  · unfold Guardian.checkAddress
    rw [h]
    cases p.filter.CheckAddress (goToLower a2) with
    | error e => exact ⟨rfl, rfl⟩
    | ok b => cases b <;> exact ⟨rfl, rfl⟩
  · intro a
    unfold Guardian.checkAddress
    cases hc : p.filter.CheckAddress (goToLower a) with
    | error e => simp
    | ok b => cases b <;> simp

/-- Witness for C4 at `0xAbC` versus `0xABC` over `hitGuardian`, whose
store hits the lowercase form `0xabc`. -/
theorem checkAddress_case_insensitive_witness :
    goToLower "0xAbC" = goToLower "0xABC" ∧
    (((hitGuardian.checkAddress txToB "0xAbC" "0xAbC").1 =
        (hitGuardian.checkAddress txToB "0xAbC" "0xABC").1 ∧
      (hitGuardian.checkAddress txToB "0xAbC" "0xAbC").2.1 =
        (hitGuardian.checkAddress txToB "0xAbC" "0xABC").2.1) ∧
     ∀ a : String,
       (hitGuardian.checkAddress txToB "0xAbC" a).1 = true ↔
         hitGuardian.filter.CheckAddress (goToLower a) = .ok true) :=
  ⟨by decide, checkAddress_case_insensitive hitGuardian txToB "0xAbC" "0xAbC" "0xABC"
    (by decide)⟩

/-- C5: when the recovered sender is not reported as a hit and the
recipient — whenever one is present — is not reported as a hit either,
`CheckTransaction` returns `false`; in particular a contract-creation
transaction with a non-hit sender yields `(false, [])`, no recipient check
being reachable. -/
theorem checkTransaction_no_hit (p : Guardian) (signer : Signer)
    (tx : Transaction) (fromHex : String)
    (hs : signer.sender tx = .ok fromHex)
    (hfrom : (p.checkAddress tx fromHex fromHex).1 = false)
    (hto : ∀ toHex, tx.toField = some toHex →
      (p.checkAddress tx fromHex toHex).1 = false) :
    (p.CheckTransaction signer tx).1 = false ∧
    (tx.toField = none → p.CheckTransaction signer tx = (false, [])) := by
  have hlog : (p.checkAddress tx fromHex fromHex).2.2 = [] := by
    revert hfrom
    unfold Guardian.checkAddress
    cases hc : p.filter.CheckAddress (goToLower fromHex) with
    | error e => intro _; rfl
    | ok b => cases b <;> simp
  unfold Guardian.CheckTransaction
  rw [hs]
  simp only [hfrom]
  constructor
  · cases hopt : tx.toField with
    | none => simp
    | some toHex =>
      have h2 := hto toHex hopt
      by_cases herr : (p.checkAddress tx fromHex fromHex).2.1.isSome
      · simp [herr]
      · simp [herr, h2]
  · intro hn
    rw [hn]
    by_cases herr : (p.checkAddress tx fromHex fromHex).2.1.isSome
    · simp [herr, hlog]
    · simp [herr, hlog]

/-- Witness for C5 at a contract-creation transaction and a non-hit sender
over `emptyGuardian`. -/
theorem checkTransaction_no_hit_witness :
    signerAbC.sender txCreate = .ok "0xAbC" ∧
    (emptyGuardian.checkAddress txCreate "0xAbC" "0xAbC").1 = false ∧
    ((emptyGuardian.CheckTransaction signerAbC txCreate).1 = false ∧
     (txCreate.toField = none →
       emptyGuardian.CheckTransaction signerAbC txCreate = (false, []))) :=
  ⟨rfl, rfl, checkTransaction_no_hit emptyGuardian signerAbC txCreate "0xAbC" rfl rfl
    (fun toHex h => by simp [txCreate] at h)⟩

/-- C2: the sender is tested first and a hit short-circuits.  A sender
store hit makes `CheckTransaction` return `true` with exactly the one
entry `{filteredAddress = sender, counterpart = sender}`, whatever the
store would answer for the recipient (the recipient is never consulted);
when the sender misses and the present recipient hits, the result is
`true` with exactly the one entry
`{filteredAddress = recipient, counterpart = sender}`. -/
theorem checkTransaction_hit_order (p : Guardian) (signer : Signer)
    (tx : Transaction) (fromHex : String)
    (hs : signer.sender tx = .ok fromHex) :
    (p.filter.CheckAddress (goToLower fromHex) = .ok true →
      p.CheckTransaction signer tx =
        (true, [{ filteredAddress := fromHex, fromAddr := fromHex, transaction := tx }])) ∧
    (∀ toHex, tx.toField = some toHex →
      p.filter.CheckAddress (goToLower fromHex) = .ok false →
      p.filter.CheckAddress (goToLower toHex) = .ok true →
      p.CheckTransaction signer tx =
        (true, [{ filteredAddress := toHex, fromAddr := fromHex, transaction := tx }])) := by
  constructor
  · intro hhit
    unfold Guardian.CheckTransaction Guardian.checkAddress
    rw [hs]
    dsimp only
    rw [hhit]
    rfl
  · intro toHex hto hmiss hhit
    unfold Guardian.CheckTransaction Guardian.checkAddress
    rw [hs]
    dsimp only
    rw [hmiss, hto]
    dsimp only
    rw [hhit]
    rfl

/-- Witness for C2: over `hitGuardian` (which hits `0xabc` and `0xbbb`),
a sender recovered as `0xAbC` short-circuits with the sender entry, and a
sender recovered as `0xDdD` with recipient `0xBBB` yields the recipient
entry. -/
theorem checkTransaction_hit_order_witness :
    (signerAbC.sender txToB = .ok "0xAbC" ∧
     hitGuardian.filter.CheckAddress (goToLower "0xAbC") = .ok true ∧
     hitGuardian.CheckTransaction signerAbC txToB =
       (true, [{ filteredAddress := "0xAbC", fromAddr := "0xAbC", transaction := txToB }])) ∧
    (signerDdD.sender txToB = .ok "0xDdD" ∧
     txToB.toField = some "0xBBB" ∧
     hitGuardian.filter.CheckAddress (goToLower "0xDdD") = .ok false ∧
     hitGuardian.filter.CheckAddress (goToLower "0xBBB") = .ok true ∧
     hitGuardian.CheckTransaction signerDdD txToB =
       (true, [{ filteredAddress := "0xBBB", fromAddr := "0xDdD", transaction := txToB }])) :=
  ⟨⟨rfl, rfl,
    (checkTransaction_hit_order hitGuardian signerAbC txToB "0xAbC" rfl).1 rfl⟩,
   rfl, rfl, rfl, rfl,
    (checkTransaction_hit_order hitGuardian signerDdD txToB "0xDdD" rfl).2 "0xBBB" rfl
      rfl rfl⟩

/-- Counterexample to C1 as stated: over `cexGuardian` the sender lookup
fails at store level while the recipient test alone would hit, yet
`CheckTransaction` returns `(false, [])` — not the recipient test's
result, which the claim requires to still be performed and returned. -/
def cexFilter : BloomFilterStore :=
  { CheckAddress := fun a =>
      if a = "0xaaa" then .error "store failure"
      else if a = "0xbbb" then .ok true
      else .ok false }

/-- Guardian over `cexFilter`. -/
def cexGuardian : Guardian := { filter := cexFilter, manager := none }

/-- A signer recovering the sender `0xAAA` from any transaction. -/
def cexSigner : Signer := { sender := fun _ => .ok "0xAAA" }

/-- C1 counterexample: the sender is recovered as `0xAAA`, the recipient
is `0xBBB`, the store errors on the sender's lowercase form and would hit
the recipient, but `CheckTransaction` returns `(false, [])` instead of the
recipient test's result `(true, recipient entry)`. -/
theorem checkTransaction_sender_error_cex :
    cexSigner.sender txToB = .ok "0xAAA" ∧
    txToB.toField = some "0xBBB" ∧
    cexGuardian.filter.CheckAddress (goToLower "0xAAA") = .error "store failure" ∧
    (cexGuardian.checkAddress txToB "0xAAA" "0xBBB").1 = true ∧
    cexGuardian.CheckTransaction cexSigner txToB = (false, []) :=
  ⟨rfl, rfl, rfl, rfl, rfl⟩

/-- C1 amended: when the sender's membership lookup returns a store-level
error, `CheckTransaction` returns `false` immediately with no audit entry;
the recipient membership test is not performed (the result is this
constant whatever the store would answer for the recipient). -/
theorem checkTransaction_sender_error_short_circuits (p : Guardian)
    (signer : Signer) (tx : Transaction) (fromHex e : String)
    (hs : signer.sender tx = .ok fromHex)
    (he : p.filter.CheckAddress (goToLower fromHex) = .error e) :
    p.CheckTransaction signer tx = (false, []) := by
  unfold Guardian.CheckTransaction Guardian.checkAddress
  rw [hs]
  dsimp only
  rw [he]
  rfl

/-- Witness for the amended C1 at the counterexample fixtures. -/
theorem checkTransaction_sender_error_short_circuits_witness :
    cexSigner.sender txToB = .ok "0xAAA" ∧
    cexGuardian.filter.CheckAddress (goToLower "0xAAA") = .error "store failure" ∧
    cexGuardian.CheckTransaction cexSigner txToB = (false, []) :=
  ⟨rfl, rfl,
    checkTransaction_sender_error_short_circuits cexGuardian cexSigner txToB
      "0xAAA" "store failure" rfl rfl⟩

/-! Environment fixtures for the lifecycle witnesses. -/

/-- An environment on a linux platform where every external constructor
succeeds. -/
def envLinux : Env :=
  { goos := "linux", currentUser := .ok "/home/user",
    storeFromFile := fun _ => .ok emptyFilter,
    notifierFromFile := fun _ => .ok (),
    managerStart := .ok () }

/-- The same healthy environment on a darwin platform. -/
def envDarwin : Env := { envLinux with goos := "darwin" }

/-- The same healthy environment on an unsupported platform. -/
def envOther : Env := { envLinux with goos := "windows" }

/-- A config with an explicit filter file path, screening enabled. -/
def cfgFile : Config := { FilterFilePath := "/tmp/bf.gob", Disabled := false }

/-- A config with no filter file path, screening enabled. -/
def cfgEmptyPath : Config := { FilterFilePath := "", Disabled := false }

/-- A config that disables the guardian. -/
def cfgDisabled : Config := { FilterFilePath := "", Disabled := true }

/-- The guardian that `newGuardian` assembles over `envLinux`. -/
def runningGuardian : Guardian :=
  { filter := emptyFilter, manager := some { running := true } }

/-- Helper: once the one-shot guard has fired, `InitInstance` leaves the
state untouched. -/
theorem initInstance_of_consumed (env : Env) (config : Config)
    (s : GlobalState) (h : s.initOnceConsumed = true) :
    InitInstance env config s = s := by
  unfold InitInstance
  rw [h]
  rfl

/-- Helper: once the one-shot guard has fired, any sequence of further
`InitInstance` calls leaves the state untouched. -/
theorem foldl_initInstance_of_consumed (later : List (Env × Config))
    (s : GlobalState) (h : s.initOnceConsumed = true) :
    later.foldl (fun t ec => InitInstance ec.1 ec.2 t) s = s := by
  induction later with
  | nil => rfl
  | cons hd tl ih =>
    rw [List.foldl_cons, initInstance_of_consumed hd.1 hd.2 s h]
    exact ih

/-- C6: initializing from a fresh process state with a disabled config
constructs no instance, and after any sequence of further `InitInstance`
calls `GetInstance` still returns the not-initialized error. -/
theorem initInstance_disabled (env : Env) (config : Config)
    (hd : config.Disabled = true) (later : List (Env × Config)) :
    (InitInstance env config initialState).instanceRef = none ∧
    GetInstance (later.foldl (fun t ec => InitInstance ec.1 ec.2 t)
        (InitInstance env config initialState)) =
      .error "guardian is not initialized" := by
  have h1 : InitInstance env config initialState =
      { instanceRef := none, initOnceConsumed := true } := by
    unfold InitInstance initialState
    rw [hd]
    rfl
  rw [h1, foldl_initInstance_of_consumed later _ rfl]
  exact ⟨rfl, rfl⟩

/-- Witness for C6: a disabled config over `envLinux`, followed by one
more (enabled) `InitInstance` call. -/
theorem initInstance_disabled_witness :
    cfgDisabled.Disabled = true ∧
    ((InitInstance envLinux cfgDisabled initialState).instanceRef = none ∧
     GetInstance ([(envLinux, cfgEmptyPath)].foldl
        (fun t ec => InitInstance ec.1 ec.2 t)
        (InitInstance envLinux cfgDisabled initialState)) =
      .error "guardian is not initialized") :=
  ⟨rfl, initInstance_disabled envLinux cfgDisabled rfl [(envLinux, cfgEmptyPath)]⟩

/-- C7: `Reset` never panics and, for every receiver and state, yields the
cleared state (no singleton, guard re-armed) together with the stopped old
instance when one was present; with the guard re-armed a subsequent
successful `InitInstance` installs a fresh instance. -/
theorem reset_clears_and_stops (p : Guardian) (s : GlobalState) :
    p.Reset s = .ok ({ instanceRef := none, initOnceConsumed := false },
      s.instanceRef.map Guardian.Stop) ∧
    (∀ env config g, config.Disabled = false → newGuardian env config = .ok g →
      (InitInstance env config
        { instanceRef := none, initOnceConsumed := false }).instanceRef = some g) := by
  constructor
  · unfold Guardian.Reset
    cases h : s.instanceRef with
    | none => rfl
    | some g => rfl
  · intro env config g hdis hng
    unfold InitInstance
    rw [hdis, hng]
    rfl

/-- Witness for C7: resetting when the singleton holds `runningGuardian`
stops its manager, and re-initialization with `cfgFile` over `envLinux`
installs a fresh instance. -/
theorem reset_clears_and_stops_witness :
    runningGuardian.Reset
        { instanceRef := some runningGuardian, initOnceConsumed := true } =
      .ok ({ instanceRef := none, initOnceConsumed := false },
        some { filter := emptyFilter, manager := some { running := false } }) ∧
    (cfgFile.Disabled = false ∧ newGuardian envLinux cfgFile = .ok runningGuardian ∧
     (InitInstance envLinux cfgFile
       { instanceRef := none, initOnceConsumed := false }).instanceRef =
         some runningGuardian) :=
  ⟨(reset_clears_and_stops runningGuardian
      { instanceRef := some runningGuardian, initOnceConsumed := true }).1,
   rfl, rfl,
   (reset_clears_and_stops runningGuardian
      { instanceRef := some runningGuardian, initOnceConsumed := true }).2
     envLinux cfgFile runningGuardian rfl rfl⟩

/-- Helper: a string append with a non-empty right part is non-empty. -/
theorem append_ne_empty (s t : String) (ht : t ≠ "") : s ++ t ≠ "" := by
  intro hc
  apply ht
  apply String.ext
  have h2 := congrArg String.data hc
  rw [String.data_append] at h2
  exact (List.append_eq_nil.mp h2).2

/-- Helper: joining two non-empty components is slash-separated append. -/
theorem filepathJoin_ne_empty (a b : String) (ha : a ≠ "") (hb : b ≠ "") :
    filepathJoin a b = a ++ "/" ++ b := by
  unfold filepathJoin
  rw [if_neg ha, if_neg hb]

/-- Helper: default path resolution on linux. -/
theorem getDefaultPath_linux (env : Env) (home : String)
    (hcu : env.currentUser = .ok home) (hgoos : env.goos = "linux") :
    getDefaultPath env = .ok (filepathJoin home linuxPath) := by
  unfold getDefaultPath
  rw [hcu, hgoos]
  rfl

/-- Helper: default path resolution on darwin. -/
theorem getDefaultPath_darwin (env : Env) (home : String)
    (hcu : env.currentUser = .ok home) (hgoos : env.goos = "darwin") :
    getDefaultPath env = .ok (filepathJoin home darwinPath) := by
  unfold getDefaultPath
  rw [hcu, hgoos]
  rfl

/-- Helper: default path resolution on an unlisted platform is the hard
error. -/
theorem getDefaultPath_other (env : Env) (home : String)
    (hcu : env.currentUser = .ok home) (hlin : env.goos ≠ "linux")
    (hdar : env.goos ≠ "darwin") :
    getDefaultPath env = .error "unsupported OS for guardian" := by
  unfold getDefaultPath
  rw [hcu]
  dsimp only
  split
  · rename_i h
    exact absurd h hlin
  · rename_i h
    exact absurd h hdar
  · rfl

/-- Helper: with an empty configured path and a resolved default path,
`newGuardian` behaves as if the default snapshot file had been
configured. -/
theorem newGuardian_empty_path (env : Env) (config : Config) (path : String)
    (hp : config.FilterFilePath = "")
    (hd : getDefaultPath env = .ok path)
    (hne : filepathJoin path bloomFilterFilename ≠ "") :
    newGuardian env config =
      newGuardian env
        { config with FilterFilePath := filepathJoin path bloomFilterFilename } := by
  unfold newGuardian
  rw [hp, hd]
  dsimp only
  rw [if_neg hne]
  rfl

/-- C8: with an empty configured path, `newGuardian` resolves the snapshot
path to the home directory joined with `geth/guardian/bloom_filter.gob` on
linux and with `Library/Story/geth/guardian/bloom_filter.gob` on darwin,
behaving exactly as if that path had been configured; on any other
platform construction fails and `InitInstance` installs no instance. -/
theorem defaultPath_platforms (env : Env) (config : Config) (home : String)
    (hp : config.FilterFilePath = "") :
    (env.currentUser = .ok home → env.goos = "linux" → home ≠ "" →
      newGuardian env config =
        newGuardian env
          { config with FilterFilePath := home ++ "/geth/guardian/bloom_filter.gob" }) ∧
    (env.currentUser = .ok home → env.goos = "darwin" → home ≠ "" →
      newGuardian env config =
        newGuardian env
          { config with
            FilterFilePath := home ++ "/Library/Story/geth/guardian/bloom_filter.gob" }) ∧
    (env.goos ≠ "linux" → env.goos ≠ "darwin" →
      (∃ e, newGuardian env config = .error e) ∧
      (InitInstance env config initialState).instanceRef = none) := by
  refine ⟨?_, ?_, ?_⟩
  · intro hcu hgoos hhome
    have hfull : filepathJoin (filepathJoin home linuxPath) bloomFilterFilename =
        home ++ "/geth/guardian/bloom_filter.gob" := by
      rw [filepathJoin_ne_empty home linuxPath hhome (by decide),
        filepathJoin_ne_empty _ bloomFilterFilename
          (append_ne_empty _ _ (by decide)) (by decide)]
      apply String.ext
      simp only [String.data_append, List.append_assoc]
      rfl
    have h0 := newGuardian_empty_path env config (filepathJoin home linuxPath) hp
      (getDefaultPath_linux env home hcu hgoos)
      (by rw [hfull]; exact append_ne_empty _ _ (by decide))
    rw [hfull] at h0
    exact h0
  · intro hcu hgoos hhome
    have hfull : filepathJoin (filepathJoin home darwinPath) bloomFilterFilename =
        home ++ "/Library/Story/geth/guardian/bloom_filter.gob" := by
      rw [filepathJoin_ne_empty home darwinPath hhome (by decide),
        filepathJoin_ne_empty _ bloomFilterFilename
          (append_ne_empty _ _ (by decide)) (by decide)]
      apply String.ext
      simp only [String.data_append, List.append_assoc]
      rfl
    have h0 := newGuardian_empty_path env config (filepathJoin home darwinPath) hp
      (getDefaultPath_darwin env home hcu hgoos)
      (by rw [hfull]; exact append_ne_empty _ _ (by decide))
    rw [hfull] at h0
    exact h0
  · intro hlin hdar
    have hfail : ∃ e, newGuardian env config = .error e := by
      cases hcu : env.currentUser with
      | error e =>
        refine ⟨e, ?_⟩
        unfold newGuardian getDefaultPath
        rw [hp, hcu]
        rfl
      | ok home =>
        refine ⟨"unsupported OS for guardian", ?_⟩
        unfold newGuardian
        rw [hp, getDefaultPath_other env home hcu hlin hdar]
        rfl
    refine ⟨hfail, ?_⟩
    obtain ⟨e, he⟩ := hfail
    unfold InitInstance initialState
    cases hdis : config.Disabled with
    | true => rfl
    | false =>
      rw [he]
      rfl

/-- Witness for C8: linux and darwin resolution at home `/home/user`, and
the hard failure with no installed instance on `envOther`. -/
theorem defaultPath_platforms_witness :
    cfgEmptyPath.FilterFilePath = "" ∧
    (envLinux.currentUser = .ok "/home/user" ∧ envLinux.goos = "linux" ∧
      newGuardian envLinux cfgEmptyPath =
        newGuardian envLinux
          { cfgEmptyPath with
            FilterFilePath := "/home/user" ++ "/geth/guardian/bloom_filter.gob" }) ∧
    (envDarwin.goos = "darwin" ∧
      newGuardian envDarwin cfgEmptyPath =
        newGuardian envDarwin
          { cfgEmptyPath with
            FilterFilePath :=
              "/home/user" ++ "/Library/Story/geth/guardian/bloom_filter.gob" }) ∧
    (envOther.goos = "windows" ∧
      (∃ e, newGuardian envOther cfgEmptyPath = .error e) ∧
      (InitInstance envOther cfgEmptyPath initialState).instanceRef = none) :=
  ⟨rfl,
   ⟨rfl, rfl,
    (defaultPath_platforms envLinux cfgEmptyPath "/home/user" rfl).1 rfl rfl
      (by decide)⟩,
   ⟨rfl,
    (defaultPath_platforms envDarwin cfgEmptyPath "/home/user" rfl).2.1 rfl rfl
      (by decide)⟩,
   ⟨rfl,
    (defaultPath_platforms envOther cfgEmptyPath "/home/user" rfl).2.2
      (by decide) (by decide)⟩⟩

/-- C9: an `InitInstance` call that installs nothing — disabled config or
failing construction — still consumes the one-shot guard: afterwards every
further `InitInstance` call is a no-op and `GetInstance` returns the
not-initialized error. -/
theorem initOnce_consumed_without_instance (env : Env) (config : Config)
    (h : config.Disabled = true ∨ ∃ e, newGuardian env config = .error e) :
    (InitInstance env config initialState).initOnceConsumed = true ∧
    (InitInstance env config initialState).instanceRef = none ∧
    (∀ env2 config2,
      InitInstance env2 config2 (InitInstance env config initialState) =
        InitInstance env config initialState) ∧
    GetInstance (InitInstance env config initialState) =
      .error "guardian is not initialized" := by
  have h1 : InitInstance env config initialState =
      { instanceRef := none, initOnceConsumed := true } := by
    unfold InitInstance initialState
    rcases h with hd | ⟨e, he⟩
    · rw [hd]
      rfl
    · cases hdis : config.Disabled with
      | true => rfl
      | false =>
        rw [he]
        rfl
  rw [h1]
  exact ⟨rfl, rfl, fun env2 config2 =>
    initInstance_of_consumed env2 config2 _ rfl, rfl⟩

/-- Witness for C9 at a construction failure: `envOther` is an unsupported
platform, so `newGuardian` fails, yet the guard is consumed and a later
healthy `InitInstance` stays a no-op. -/
theorem initOnce_consumed_without_instance_witness :
    newGuardian envOther cfgEmptyPath = .error "unsupported OS for guardian" ∧
    ((InitInstance envOther cfgEmptyPath initialState).initOnceConsumed = true ∧
     (InitInstance envOther cfgEmptyPath initialState).instanceRef = none ∧
     (∀ env2 config2,
       InitInstance env2 config2 (InitInstance envOther cfgEmptyPath initialState) =
         InitInstance envOther cfgEmptyPath initialState) ∧
     GetInstance (InitInstance envOther cfgEmptyPath initialState) =
       .error "guardian is not initialized") :=
  ⟨rfl, initOnce_consumed_without_instance envOther cfgEmptyPath
    (Or.inr ⟨"unsupported OS for guardian", rfl⟩)⟩

/-- C10: the state-threaded reading of `CheckTransaction` returns the
receiver and the package-level singleton state unchanged, and its boolean
and audit-entry outcome is exactly that of `CheckTransaction`. -/
theorem checkTransaction_frame (p : Guardian) (s : GlobalState)
    (signer : Signer) (tx : Transaction) :
    Guardian.CheckTransactionST p s signer tx =
      (p.CheckTransaction signer tx, p, s) := by
  unfold Guardian.CheckTransactionST Guardian.CheckTransaction
  cases signer.sender tx with
  | error e => rfl
  | ok fromHex =>
    dsimp only
    split
    · rfl
    · cases tx.toField with
      | none => rfl
      | some toHex =>
        dsimp only
        split <;> rfl

end Guard
